import Mathlib

/-!
Verification development for the youki container runtime sources
(src/main.rs and src/process/child.rs).  Paths are modelled as strings,
fallible OS calls as explicit `Except` results supplied by the
environment, and side effects as event traces.
-/

namespace Youki

abbrev Path := String

/-- Default value of the `--root` option (main.rs line 34,
`default_value = "/run/youki"`). -/
def defaultRoot : Path := "/run/youki"

/-- Unprivileged fallback root directory used in rootless mode
(main.rs line 92). -/
def rootlessFallback : Path := "/tmp/rootless"

/-- Variants of `enum SubCommand` (main.rs lines 50-80).  The payload
structs live in out-of-scope command modules; only the variant tag is
needed for the dispatcher. -/
inductive SubCommand
  | create | start | run | exec | kill | delete | state | info | spec
  | list | pause | resume | events | ps
deriving DecidableEq

/-- One handler invocation as performed by the match in main.rs lines
100-115: which command module `exec` is called, and with which of the
global arguments (`root_path`, `systemd_cgroup`). -/
inductive HandlerCall
  | create (root : Path) (systemdCgroup : Bool)
  | start (root : Path)
  | run (root : Path) (systemdCgroup : Bool)
  | exec (root : Path)
  | kill (root : Path)
  | delete (root : Path) (systemdCgroup : Bool)
  | state (root : Path)
  | info
  | spec
  | list (root : Path)
  | pause (root : Path) (systemdCgroup : Bool)
  | resume (root : Path) (systemdCgroup : Bool)
  | events (root : Path)
  | ps (root : Path)
deriving DecidableEq

/-- The match expression of main.rs lines 100-115. -/
def dispatch (cmd : SubCommand) (rootPath : Path) (systemdCgroup : Bool) :
    HandlerCall :=
  match cmd with
  | .create => .create rootPath systemdCgroup
  | .start => .start rootPath
  | .run => .run rootPath systemdCgroup
  | .exec => .exec rootPath
  | .kill => .kill rootPath
  | .delete => .delete rootPath systemdCgroup
  | .state => .state rootPath
  | .info => .info
  | .spec => .spec
  | .list => .list rootPath
  | .pause => .pause rootPath systemdCgroup
  | .resume => .resume rootPath systemdCgroup
  | .events => .events rootPath
  | .ps => .ps rootPath

/-- The subcommand a handler invocation belongs to. -/
def handlerTag : HandlerCall → SubCommand
  | .create _ _ => .create
  | .start _ => .start
  | .run _ _ => .run
  | .exec _ => .exec
  | .kill _ => .kill
  | .delete _ _ => .delete
  | .state _ => .state
  | .info => .info
  | .spec => .spec
  | .list _ => .list
  | .pause _ _ => .pause
  | .resume _ _ => .resume
  | .events _ => .events
  | .ps _ => .ps

/-- All variants of `SubCommand`, in declaration order. -/
def allSubCommands : List SubCommand :=
  [.create, .start, .run, .exec, .kill, .delete, .state, .info, .spec,
   .list, .pause, .resume, .events, .ps]

/-- Command-line options (`struct Opts`, main.rs lines 30-46).
`root = none` models the caller not passing `--root`; clap substitutes
the declared default value before `main` runs, which `effectiveRoot`
reproduces. -/
structure Opts where
  root : Option Path
  log : Option Path
  logFormat : Option String
  systemdCgroup : Bool
  subcmd : SubCommand
deriving DecidableEq

/-- The value of the `root` field as `main` sees it: the given path, or
the clap default when the caller did not pass `--root`. -/
def Opts.effectiveRoot (o : Opts) : Path := o.root.getD defaultRoot

/-- Root resolution, main.rs lines 91-95: if `should_use_rootless()`
returns true and the root value equals the default `/run/youki`, the
resolved path is `/tmp/rootless`; otherwise `opts.root` is used
verbatim. -/
def resolveRoot (root : Path) (rootless : Bool) : Path :=
  if rootless && root == defaultRoot then rootlessFallback else root

/-- The root path `main` computes for a given invocation. -/
def resolvedRootOf (o : Opts) (rootless : Bool) : Path :=
  resolveRoot o.effectiveRoot rootless

/-- Observable events of one invocation of `main`. -/
inductive Event
  | logInitFailed
  | createDirAll (p : Path)
  | dispatched (h : HandlerCall)
deriving DecidableEq

/-- Environment of one invocation: the results of the OS-dependent calls
made by `main` (`should_use_rootless`, `youki::logger::init`,
`fs::create_dir_all`). -/
structure Env where
  rootless : Bool
  loggerResult : Except String Unit
  fsCreateDirAll : Path → Except String Unit

/-- The body of `main` (main.rs lines 84-116): report a logger-init
failure on stderr and continue; resolve the root; create the root
directory, propagating its error with `?`; otherwise dispatch the
subcommand.  Returns the event trace together with the overall result. -/
def mainRun (o : Opts) (env : Env) : List Event × Except String HandlerCall :=
  let logEvents : List Event :=
    match env.loggerResult with
    | .error _ => [.logInitFailed]
    | .ok _ => []
  let rootPath := resolveRoot o.effectiveRoot env.rootless
  match env.fsCreateDirAll rootPath with
  | .error e => (logEvents ++ [.createDirAll rootPath], .error e)
  | .ok _ =>
    (logEvents ++ [.createDirAll rootPath,
       .dispatched (dispatch o.subcmd rootPath o.systemdCgroup)],
     .ok (dispatch o.subcmd rootPath o.systemdCgroup))

/-! Embedding of src/process/child.rs. -/

/-- Handshake message variants of the bootstrap protocol (spec section 3,
Handshake Message). -/
inductive Msg | childReady | requestIdentifierMapping | mappingAck
deriving DecidableEq

/-- One action a `ChildProcess` performs on its parent channel: sending a
message upward, or blocking until a message arrives. -/
inductive ChanAct
  | send (m : Msg)
  | waitFor (m : Msg)
deriving DecidableEq

/-- Modelled from the spec: `ParentChannel` lives in src/process/parent.rs,
which is not among the given sources.  Per spec section 4.1 a channel
endpoint is one end of a directional pipe with an open/closed status, and
`send` fails with an I/O error on a closed or broken pipe.  The three
methods used by child.rs each transfer one fixed message; we record the
sequence of performed actions. -/
structure ParentChannel where
  isOpen : Bool
  acts : List ChanAct
deriving DecidableEq

/-- Modelled from the spec: `ParentChannel::send_child_ready` sends the
`ChildReady` message, failing on a closed pipe. -/
def ParentChannel.send_child_ready (c : ParentChannel) :
    Except String ParentChannel :=
  if c.isOpen then .ok { c with acts := c.acts ++ [.send .childReady] }
  else .error "broken pipe"

/-- Modelled from the spec: `ParentChannel::request_identifier_mapping`
relays the `RequestIdentifierMapping` message, failing on a closed pipe. -/
def ParentChannel.request_identifier_mapping (c : ParentChannel) :
    Except String ParentChannel :=
  if c.isOpen then
    .ok { c with acts := c.acts ++ [.send .requestIdentifierMapping] }
  else .error "broken pipe"

/-- Modelled from the spec: `ParentChannel::wait_for_mapping_ack` blocks
until the `MappingAck` message arrives, failing on a closed pipe. -/
def ParentChannel.wait_for_mapping_ack (c : ParentChannel) :
    Except String ParentChannel :=
  if c.isOpen then .ok { c with acts := c.acts ++ [.waitFor .mappingAck] }
  else .error "broken pipe"

/-- Receiving end of a mio pipe, identified by its OS handle. -/
structure Receiver where
  fd : Nat
deriving DecidableEq

/-- Sending end of a mio pipe, identified by its OS handle. -/
structure Sender where
  fd : Nat
deriving DecidableEq

/-- mio readiness interests (only READABLE is used by child.rs). -/
inductive Interest | READABLE | WRITABLE
deriving DecidableEq

/-- The token identifying which socket generated an event
(child.rs line 10, `const CHILD: Token = Token(1)`). -/
def CHILD : Nat := 1

/-- A mio `Poll`: its registry, i.e. the list of
(handle, token, interest) registrations, in registration order. -/
structure Poll where
  registrations : List (Nat × Nat × Interest)
deriving DecidableEq

/-- `registry().register(&mut receiver, token, interest)`: adds one
registration for the receiver handle. -/
def Poll.register (p : Poll) (r : Receiver) (tok : Nat) (i : Interest) :
    Poll :=
  { registrations := p.registrations ++ [(r.fd, tok, i)] }

/-- Outcomes of the fallible OS calls made by `setup_pipe`: `pipe::new()`
(allocation of the two pipe handles), `Poll::new()` (a successful call
yields a poll with an empty registry), and `registry().register(..)`. -/
structure OS where
  pipeNew : Except String (Sender × Receiver)
  pollNew : Except String Unit
  registerResult : Except String Unit

/-- `struct ChildProcess` (child.rs lines 14-18): the sending end of the
pipe to the parent process, and the optional receiving end of the pipe for
the init process with its poller. -/
structure ChildProcess where
  parent_channel : ParentChannel
  receiver : Option Receiver
  poll : Option Poll
deriving DecidableEq

/-- `ChildProcess::new` (child.rs lines 28-34). -/
def ChildProcess.new (parent_channel : ParentChannel) :
    Except String ChildProcess :=
  .ok { parent_channel, receiver := none, poll := none }

/-- `ChildProcess::setup_pipe` (child.rs lines 37-50): create one pipe
pair, create a fresh poll, register the receiving end with it for read
events under token CHILD, store receiver and poll in the structure, and
return the sending end; each `?` propagates the OS error. -/
def ChildProcess.setup_pipe (s : ChildProcess) (os : OS) :
    Except String (Sender × ChildProcess) :=
  match os.pipeNew with
  | .error e => .error e
  | .ok (sender, receiver) =>
    match os.pollNew with
    | .error e => .error e
    | .ok _ =>
      match os.registerResult with
      | .error e => .error e
      | .ok _ =>
        let poll := Poll.register ⟨[]⟩ receiver CHILD .READABLE
        .ok (sender,
          { s with receiver := some receiver, poll := some poll })

/-- `ChildProcess::notify_parent` (child.rs lines 53-56). -/
def ChildProcess.notify_parent (s : ChildProcess) :
    Except String ChildProcess :=
  match s.parent_channel.send_child_ready with
  | .error e => .error e
  | .ok pc => .ok { s with parent_channel := pc }

/-- `ChildProcess::request_identifier_mapping` (child.rs lines 58-61). -/
def ChildProcess.request_identifier_mapping (s : ChildProcess) :
    Except String ChildProcess :=
  match s.parent_channel.request_identifier_mapping with
  | .error e => .error e
  | .ok pc => .ok { s with parent_channel := pc }

/-- `ChildProcess::wait_for_mapping_ack` (child.rs lines 63-66). -/
def ChildProcess.wait_for_mapping_ack (s : ChildProcess) :
    Except String ChildProcess :=
  match s.parent_channel.wait_for_mapping_ack with
  | .error e => .error e
  | .ok pc => .ok { s with parent_channel := pc }

/-- The public mutating operations of `ChildProcess`. -/
inductive Op
  | setupPipe | notifyParent | requestIdMapping | waitMappingAck
deriving DecidableEq

/-- Whether an operation of child.rs blocks waiting on the stored receive
endpoint.  None does: `setup_pipe` only creates the pipe and registers the
receiver (registration is not a wait), and the other three methods act on
`parent_channel` only; no method of child.rs calls `poll` on the stored
poller. -/
def Op.waitsOnReceiver : Op → Bool
  | .setupPipe => false
  | .notifyParent => false
  | .requestIdMapping => false
  | .waitMappingAck => false

/-- Run one operation on the state.  In the Rust source each method writes
its fields only after every fallible call has succeeded, so on error the
state is unchanged. -/
def ChildProcess.step (s : ChildProcess) (os : OS) : Op → ChildProcess
  | .setupPipe =>
    match s.setup_pipe os with
    | .ok (_, t) => t
    | .error _ => s
  | .notifyParent =>
    match s.notify_parent with
    | .ok t => t
    | .error _ => s
  | .requestIdMapping =>
    match s.request_identifier_mapping with
    | .ok t => t
    | .error _ => s
  | .waitMappingAck =>
    match s.wait_for_mapping_ack with
    | .ok t => t
    | .error _ => s

/-- Run a sequence of operations. -/
def ChildProcess.runOps (s : ChildProcess) (os : OS) : List Op → ChildProcess
  | [] => s
  | op :: ops => (s.step os op).runOps os ops

/-- The endpoint/poller pairing invariant of a `ChildProcess`: the stored
receiving end and poller are both absent, or the poller holds exactly the
single registration that `setup_pipe` made for the stored receiving
end. -/
def ChildProcess.pairedUniquely (s : ChildProcess) : Bool :=
  match s.receiver, s.poll with
  | none, none => true
  | some r, some p =>
    p.registrations == [(r.fd, CHILD, Interest.READABLE)]
  | _, _ => false

/-- Modelled from the spec: the child-side bootstrap driver (the caller of
the three channel methods, in the process module, is not among the given
sources).  Per spec section 4.3 steps 4-5, after forking init the child
first notifies the parent with `ChildReady`; then, in a rootless
(user-namespace-remapped) configuration, it relays
`RequestIdentifierMapping` and waits for `MappingAck`. -/
def childBootstrap (s : ChildProcess) (rootless : Bool) :
    Except String ChildProcess :=
  match s.notify_parent with
  | .error e => .error e
  | .ok s1 =>
    if rootless then
      match s1.request_identifier_mapping with
      | .error e => .error e
      | .ok s2 => s2.wait_for_mapping_ack
    else .ok s1

/-- Modelled from the spec: the messages the Main process observes, in
order.  Per spec section 5, message order within one channel is FIFO and
reliable, so Main observes exactly the messages the child sent, in the
order the child sent them. -/
def mainObserves (c : ParentChannel) : List Msg :=
  c.acts.filterMap fun a =>
    match a with
    | .send m => some m
    | .waitFor _ => none

/-! Theorems about root resolution and the dispatcher. -/

/-- Claim C1 counterexample: an invocation with an explicit override equal
to the default path, under rootless, is not resolved verbatim — the
fallback is returned although the caller did override the default. -/
theorem resolve_root_override_default_cex :
    (⟨some defaultRoot, none, none, false, SubCommand.create⟩ : Opts).root ≠
      none ∧
    resolvedRootOf ⟨some defaultRoot, none, none, false, SubCommand.create⟩
      true = rootlessFallback ∧
    rootlessFallback ≠ defaultRoot := by
  refine ⟨by simp, rfl, by decide⟩

/-- Claim C1 (amended): with no override and a rootless process the
resolved root is the unprivileged fallback, which differs from the
privileged default; in every other invocation the requested (or default)
path is used verbatim, except that an explicit override equal to the
default path under rootless is also resolved to the fallback, because the
code compares the root value rather than whether it was overridden. -/
theorem resolve_root_cases (o : Opts) (rootless : Bool) :
    (o.root = none ∧ rootless = true →
       resolvedRootOf o rootless = rootlessFallback) ∧
    rootlessFallback ≠ defaultRoot ∧
    (rootless = false → resolvedRootOf o rootless = o.effectiveRoot) ∧
    (∀ p, o.root = some p → p ≠ defaultRoot →
       resolvedRootOf o rootless = p) ∧
    (o.root = some defaultRoot → rootless = true →
       resolvedRootOf o rootless = rootlessFallback) := by
  refine ⟨?_, by decide, ?_, ?_, ?_⟩
  · rintro ⟨h1, h2⟩
    simp [resolvedRootOf, resolveRoot, Opts.effectiveRoot, h1, h2, defaultRoot]
  · intro h
    simp [resolvedRootOf, resolveRoot, h]
  · intro p hp hne
    simp [resolvedRootOf, resolveRoot, Opts.effectiveRoot, hp, hne]
  · intro hp h2
    simp [resolvedRootOf, resolveRoot, Opts.effectiveRoot, hp, h2]

/-- Witness for `resolve_root_cases` at a concrete invocation. -/
theorem resolve_root_cases_witness :
    resolvedRootOf ⟨none, none, none, false, SubCommand.create⟩ true =
      rootlessFallback :=
  (resolve_root_cases ⟨none, none, none, false, SubCommand.create⟩ true).1
    ⟨rfl, rfl⟩

/-- Claim C2 counterexample: an explicit override that equals the
privileged default path is not honored under rootless: the resolved root
is the fallback, not the override. -/
theorem override_not_honored_cex :
    resolvedRootOf ⟨some "/run/youki", none, none, true, SubCommand.state⟩
      true ≠ "/run/youki" := by
  decide

/-- Claim C2 (amended): an explicit root override is honored verbatim
regardless of privilege, unless the process is rootless and the override
equals the privileged default path, in which case the unprivileged
fallback is used instead. -/
theorem override_honored (o : Opts) (p : Path) (rootless : Bool)
    (h : o.root = some p) (hd : p ≠ defaultRoot ∨ rootless = false) :
    resolvedRootOf o rootless = p := by
  rcases hd with hd | hd
  · simp [resolvedRootOf, resolveRoot, Opts.effectiveRoot, h, hd]
  · simp [resolvedRootOf, resolveRoot, Opts.effectiveRoot, h, hd]

/-- Witness for `override_honored` at a concrete invocation. -/
theorem override_honored_witness :
    resolvedRootOf ⟨some "/data/root", none, none, false, SubCommand.kill⟩
      true = "/data/root" :=
  override_honored ⟨some "/data/root", none, none, false, SubCommand.kill⟩
    "/data/root" true rfl (Or.inl (by decide))

/-- Claim C4: the dispatcher is a closed tagged-variant dispatch: the
subcommand type has exactly the fixed 14 variants, the variant list
includes create, start, run, kill, delete, state, list, pause, resume,
events, exec and ps, and the match in main maps every variant to exactly
the one handler invocation tagged with that variant. -/
theorem dispatch_closed_and_exhaustive :
    (∀ c : SubCommand, c ∈ allSubCommands) ∧
    allSubCommands.length = 14 ∧
    ([SubCommand.create, .start, .run, .kill, .delete, .state, .list,
      .pause, .resume, .events, .exec, .ps] ⊆ allSubCommands) ∧
    (∀ (r : Path) (sc : Bool) (c : SubCommand),
       handlerTag (dispatch c r sc) = c) := by
  refine ⟨fun c => by cases c <;> simp [allSubCommands], rfl, by decide,
    fun r sc c => by cases c <;> rfl⟩

/-- Claim C10: a logger-init failure is non-fatal: main reports it on
stderr and then behaves exactly as it would have with a successful logger
init — the rest of the event trace and the overall result are
identical. -/
theorem logger_failure_nonfatal (o : Opts) (env : Env) (e : String)
    (h : env.loggerResult = .error e) :
    (mainRun o env).1 =
      Event.logInitFailed ::
        (mainRun o { env with loggerResult := .ok () }).1 ∧
    (mainRun o env).2 = (mainRun o { env with loggerResult := .ok () }).2 := by
  unfold mainRun
  cases hf : env.fsCreateDirAll (resolveRoot o.effectiveRoot env.rootless) <;>
    simp [h, hf]

/-- Witness for `logger_failure_nonfatal` at a concrete invocation. -/
theorem logger_failure_nonfatal_witness :
    (mainRun ⟨none, none, none, false, SubCommand.list⟩
        ⟨false, .error "open failed", fun _ => .ok ()⟩).1 =
      Event.logInitFailed ::
        (mainRun ⟨none, none, none, false, SubCommand.list⟩
          ⟨false, .ok (), fun _ => .ok ()⟩).1 ∧
    (mainRun ⟨none, none, none, false, SubCommand.list⟩
        ⟨false, .error "open failed", fun _ => .ok ()⟩).2 =
      (mainRun ⟨none, none, none, false, SubCommand.list⟩
        ⟨false, .ok (), fun _ => .ok ()⟩).2 :=
  logger_failure_nonfatal ⟨none, none, none, false, SubCommand.list⟩
    ⟨false, .error "open failed", fun _ => .ok ()⟩ "open failed" rfl

/-! Theorems about ChildProcess. -/

/-- Claim C5: setup_pipe creates one pipe pair, a fresh poller holding
only the registration of the receiving end for readable interest under
token CHILD, stores the receiving end and the poller in the structure,
and returns the sending end; a failure of the pipe allocation, of the
poller creation or of the registration is propagated as an error. -/
theorem setup_pipe_contract (s : ChildProcess) (os : OS) :
    (∀ sender receiver, os.pipeNew = .ok (sender, receiver) →
       os.pollNew = .ok () → os.registerResult = .ok () →
       s.setup_pipe os = .ok (sender,
         { s with receiver := some receiver,
                  poll := some ⟨[(receiver.fd, CHILD, Interest.READABLE)]⟩ })) ∧
    (∀ e, os.pipeNew = .error e → s.setup_pipe os = .error e) ∧
    (∀ sr e, os.pipeNew = .ok sr → os.pollNew = .error e →
       s.setup_pipe os = .error e) ∧
    (∀ sr e, os.pipeNew = .ok sr → os.pollNew = .ok () →
       os.registerResult = .error e → s.setup_pipe os = .error e) := by
  refine ⟨?_, ?_, ?_, ?_⟩ <;> intros <;>
    simp_all [ChildProcess.setup_pipe, Poll.register]

/-- Witness for `setup_pipe_contract` at a concrete state and OS
outcome. -/
theorem setup_pipe_contract_witness :
    ChildProcess.setup_pipe ⟨⟨true, []⟩, none, none⟩
        ⟨.ok (⟨3⟩, ⟨4⟩), .ok (), .ok ()⟩ =
      .ok (⟨3⟩, ⟨⟨true, []⟩, some ⟨4⟩,
        some ⟨[(4, CHILD, Interest.READABLE)]⟩⟩) :=
  (setup_pipe_contract ⟨⟨true, []⟩, none, none⟩
    ⟨.ok (⟨3⟩, ⟨4⟩), .ok (), .ok ()⟩).1 ⟨3⟩ ⟨4⟩ rfl rfl rfl

/-- Claim C6 counterexample: running only setup_pipe — an operation
sequence in which no operation waits on the receive endpoint (no method
of child.rs polls the stored poller) — already creates the poller, so the
poller is created at endpoint setup time, not first at a wait. -/
theorem poller_without_wait_cex :
    ChildProcess.new ⟨true, []⟩ = .ok ⟨⟨true, []⟩, none, none⟩ ∧
    List.all [Op.setupPipe] Op.waitsOnReceiver = false ∧
    (ChildProcess.runOps ⟨⟨true, []⟩, none, none⟩
        ⟨.ok (⟨3⟩, ⟨4⟩), .ok (), .ok ()⟩ [Op.setupPipe]).poll.isSome =
      true :=
  ⟨rfl, rfl, rfl⟩

/-- Claim C6 (amended): the poller is not created at construction — a
fresh ChildProcess holds none — and it is created exactly by setup_pipe,
together with the receive endpoint: no other operation creates or changes
it, and a successful setup_pipe installs it. -/
theorem poller_created_by_setup_pipe (pc : ParentChannel)
    (s t : ChildProcess) (u : Sender) (os : OS) (op : Op) :
    (∀ w, ChildProcess.new pc = .ok w → w.poll = none) ∧
    (op ≠ .setupPipe → (s.step os op).poll = s.poll) ∧
    (s.setup_pipe os = .ok (u, t) → t.poll.isSome = true) := by
  refine ⟨?_, ?_, ?_⟩
  · intro w hw
    cases hw
    rfl
  · intro hop
    cases op with
    | setupPipe => exact absurd rfl hop
    | notifyParent =>
      simp only [ChildProcess.step, ChildProcess.notify_parent,
        ParentChannel.send_child_ready]
      cases h : s.parent_channel.isOpen <;> simp [h]
    | requestIdMapping =>
      simp only [ChildProcess.step, ChildProcess.request_identifier_mapping,
        ParentChannel.request_identifier_mapping]
      cases h : s.parent_channel.isOpen <;> simp [h]
    | waitMappingAck =>
      simp only [ChildProcess.step, ChildProcess.wait_for_mapping_ack,
        ParentChannel.wait_for_mapping_ack]
      cases h : s.parent_channel.isOpen <;> simp [h]
  · intro h
    cases hp : os.pipeNew with
    | error e => simp_all [ChildProcess.setup_pipe]
    | ok sr =>
      cases hn : os.pollNew with
      | error e => simp_all [ChildProcess.setup_pipe]
      | ok uu =>
        cases hr : os.registerResult with
        | error e => simp_all [ChildProcess.setup_pipe]
        | ok uu2 =>
          obtain ⟨sd, rc⟩ := sr
          simp_all [ChildProcess.setup_pipe, Poll.register]
          obtain ⟨h1, h2⟩ := h
          simp [← h2]

/-- Witness for `poller_created_by_setup_pipe` at concrete inputs. -/
theorem poller_created_by_setup_pipe_witness :
    ((⟨⟨true, []⟩, none, none⟩ : ChildProcess).step
        ⟨.ok (⟨3⟩, ⟨4⟩), .ok (), .ok ()⟩ Op.notifyParent).poll =
      (⟨⟨true, []⟩, none, none⟩ : ChildProcess).poll :=
  (poller_created_by_setup_pipe ⟨true, []⟩ ⟨⟨true, []⟩, none, none⟩
    ⟨⟨true, []⟩, none, none⟩ ⟨0⟩ ⟨.ok (⟨3⟩, ⟨4⟩), .ok (), .ok ()⟩
    Op.notifyParent).2.1 (by decide)

/-- Claim C7: at most one poller is active for the receive endpoint: a
fresh ChildProcess satisfies the pairing invariant (endpoint and poller
both absent or one matched pair), every operation preserves it, and a
successful setup_pipe replaces the stored pair by the single freshly
created endpoint/poller pair — the new poller holds exactly one
registration — rather than adding a second. -/
theorem single_waiter_invariant (pc : ParentChannel) (s t : ChildProcess)
    (u : Sender) (os : OS) (op : Op) :
    (∀ w, ChildProcess.new pc = .ok w → w.pairedUniquely = true) ∧
    (s.pairedUniquely = true → (s.step os op).pairedUniquely = true) ∧
    (s.setup_pipe os = .ok (u, t) →
       ∃ r, os.pipeNew = .ok (u, r) ∧ t.receiver = some r ∧
         t.poll = some ⟨[(r.fd, CHILD, Interest.READABLE)]⟩) := by
  refine ⟨?_, ?_, ?_⟩
  · intro w hw
    cases hw
    rfl
  · intro hs
    cases op with
    | setupPipe =>
      simp only [ChildProcess.step]
      cases hsp : s.setup_pipe os with
      | error e => exact hs
      | ok p =>
        obtain ⟨sd, t2⟩ := p
        cases hp : os.pipeNew with
        | error e => simp_all [ChildProcess.setup_pipe]
        | ok sr =>
          cases hn : os.pollNew with
          | error e => simp_all [ChildProcess.setup_pipe]
          | ok uu =>
            cases hr : os.registerResult with
            | error e => simp_all [ChildProcess.setup_pipe]
            | ok uu2 =>
              obtain ⟨sd2, rc⟩ := sr
              simp_all [ChildProcess.setup_pipe, Poll.register]
              obtain ⟨h1, h2⟩ := hsp
              simp [← h2, ChildProcess.pairedUniquely]
    | notifyParent =>
      simp only [ChildProcess.step, ChildProcess.notify_parent,
        ParentChannel.send_child_ready]
      cases h : s.parent_channel.isOpen <;>
        simp_all [ChildProcess.pairedUniquely]
    | requestIdMapping =>
      simp only [ChildProcess.step, ChildProcess.request_identifier_mapping,
        ParentChannel.request_identifier_mapping]
      cases h : s.parent_channel.isOpen <;>
        simp_all [ChildProcess.pairedUniquely]
    | waitMappingAck =>
      simp only [ChildProcess.step, ChildProcess.wait_for_mapping_ack,
        ParentChannel.wait_for_mapping_ack]
      cases h : s.parent_channel.isOpen <;>
        simp_all [ChildProcess.pairedUniquely]
  · intro h
    unfold ChildProcess.setup_pipe at h
    cases hp : os.pipeNew with
    | error e =>
      rw [hp] at h
      exact Except.noConfusion h
    | ok sr =>
      obtain ⟨sd, rc⟩ := sr
      rw [hp] at h
      cases hn : os.pollNew with
      | error e =>
        rw [hn] at h
        exact Except.noConfusion h
      | ok uu =>
        rw [hn] at h
        cases hr : os.registerResult with
        | error e =>
          rw [hr] at h
          exact Except.noConfusion h
        | ok uu2 =>
          rw [hr] at h
          injection h with h3
          injection h3 with h4 h5
          subst h4
          subst h5
          exact ⟨rc, rfl, rfl, rfl⟩

/-- Witness for `single_waiter_invariant` at a concrete successful
setup_pipe. -/
theorem single_waiter_invariant_witness :
    ∃ r, (⟨.ok (⟨3⟩, ⟨4⟩), .ok (), .ok ()⟩ : OS).pipeNew = .ok (⟨3⟩, r) ∧
      (⟨⟨true, []⟩, some ⟨4⟩,
         some ⟨[(4, CHILD, Interest.READABLE)]⟩⟩ : ChildProcess).receiver =
        some r ∧
      (⟨⟨true, []⟩, some ⟨4⟩,
         some ⟨[(4, CHILD, Interest.READABLE)]⟩⟩ : ChildProcess).poll =
        some ⟨[(r.fd, CHILD, Interest.READABLE)]⟩ :=
  (single_waiter_invariant ⟨true, []⟩ ⟨⟨true, []⟩, none, none⟩
    ⟨⟨true, []⟩, some ⟨4⟩, some ⟨[(4, CHILD, Interest.READABLE)]⟩⟩ ⟨3⟩
    ⟨.ok (⟨3⟩, ⟨4⟩), .ok (), .ok ()⟩ Op.setupPipe).2.2 rfl

/-- Claim C9: a fresh ChildProcess holds neither a receive endpoint nor a
poller, and notify_parent, request_identifier_mapping and
wait_for_mapping_ack act only on the parent channel: on success they
preserve receiver and poller verbatim, and they succeed — setup_pipe need
not have been called — whenever the parent channel is open. -/
theorem parent_ops_frame (pc : ParentChannel) (s : ChildProcess) :
    (∀ w, ChildProcess.new pc = .ok w →
       w.receiver = none ∧ w.poll = none) ∧
    (∀ t, s.notify_parent = .ok t →
       t.receiver = s.receiver ∧ t.poll = s.poll) ∧
    (∀ t, s.request_identifier_mapping = .ok t →
       t.receiver = s.receiver ∧ t.poll = s.poll) ∧
    (∀ t, s.wait_for_mapping_ack = .ok t →
       t.receiver = s.receiver ∧ t.poll = s.poll) ∧
    (s.parent_channel.isOpen = true →
       (∃ t, s.notify_parent = .ok t) ∧
       (∃ t, s.request_identifier_mapping = .ok t) ∧
       (∃ t, s.wait_for_mapping_ack = .ok t)) := by
  refine ⟨?_, ?_, ?_, ?_, ?_⟩
  · intro w hw
    cases hw
    exact ⟨rfl, rfl⟩
  · intro t ht
    unfold ChildProcess.notify_parent ParentChannel.send_child_ready at ht
    cases h : s.parent_channel.isOpen with
    | false =>
      rw [h] at ht
      exact Except.noConfusion ht
    | true =>
      rw [h] at ht
      injection ht with ht2
      rw [← ht2]
      exact ⟨rfl, rfl⟩
  · intro t ht
    unfold ChildProcess.request_identifier_mapping
      ParentChannel.request_identifier_mapping at ht
    cases h : s.parent_channel.isOpen with
    | false =>
      rw [h] at ht
      exact Except.noConfusion ht
    | true =>
      rw [h] at ht
      injection ht with ht2
      rw [← ht2]
      exact ⟨rfl, rfl⟩
  · intro t ht
    unfold ChildProcess.wait_for_mapping_ack
      ParentChannel.wait_for_mapping_ack at ht
    cases h : s.parent_channel.isOpen with
    | false =>
      rw [h] at ht
      exact Except.noConfusion ht
    | true =>
      rw [h] at ht
      injection ht with ht2
      rw [← ht2]
      exact ⟨rfl, rfl⟩
  · intro hopen
    refine ⟨⟨{ s with parent_channel :=
        ⟨true, s.parent_channel.acts ++ [ChanAct.send Msg.childReady]⟩ },
        ?_⟩,
      ⟨{ s with parent_channel := ⟨true, s.parent_channel.acts ++
          [ChanAct.send Msg.requestIdentifierMapping]⟩ }, ?_⟩,
      ⟨{ s with parent_channel :=
        ⟨true, s.parent_channel.acts ++ [ChanAct.waitFor Msg.mappingAck]⟩ },
        ?_⟩⟩
    · unfold ChildProcess.notify_parent ParentChannel.send_child_ready
      rw [hopen]
      rfl
    · unfold ChildProcess.request_identifier_mapping
        ParentChannel.request_identifier_mapping
      rw [hopen]
      rfl
    · unfold ChildProcess.wait_for_mapping_ack
        ParentChannel.wait_for_mapping_ack
      rw [hopen]
      rfl

/-- Witness for `parent_ops_frame` at a concrete fresh state. -/
theorem parent_ops_frame_witness :
    ∃ t, (⟨⟨true, []⟩, none, none⟩ : ChildProcess).notify_parent = .ok t :=
  ((parent_ops_frame ⟨true, []⟩ ⟨⟨true, []⟩, none, none⟩).2.2.2.2 rfl).1

/-- Claim C3: after root resolution, main creates the resolved root
directory (including parents) before any subcommand is dispatched: every
trace contains the creation event at a position preceded by no dispatch
event, and when the creation fails the invocation returns that I/O error
and no dispatch event occurs at all. -/
theorem create_dir_before_dispatch (o : Opts) (env : Env) :
    (∃ pre post, (mainRun o env).1 =
        pre ++ Event.createDirAll (resolvedRootOf o env.rootless) :: post ∧
        ∀ hc, Event.dispatched hc ∉ pre) ∧
    (∀ e, env.fsCreateDirAll (resolvedRootOf o env.rootless) = .error e →
       (mainRun o env).2 = .error e ∧
       ∀ hc, Event.dispatched hc ∉ (mainRun o env).1) := by
  simp only [mainRun, resolvedRootOf]
  cases hl : env.loggerResult with
  | error el =>
    cases hf : env.fsCreateDirAll (resolveRoot o.effectiveRoot env.rootless) with
    | error e =>
      refine ⟨⟨[Event.logInitFailed], [], by simp, by simp⟩,
        fun e2 he => ?_⟩
      simp at he
      subst he
      simp
    | ok u =>
      refine ⟨⟨[Event.logInitFailed],
        [Event.dispatched (dispatch o.subcmd
          (resolveRoot o.effectiveRoot env.rootless) o.systemdCgroup)],
        by simp, by simp⟩,
        fun e2 he => by simp at he⟩
  | ok u0 =>
    cases hf : env.fsCreateDirAll (resolveRoot o.effectiveRoot env.rootless) with
    | error e =>
      refine ⟨⟨[], [], by simp, by simp⟩, fun e2 he => ?_⟩
      simp at he
      subst he
      simp
    | ok u =>
      refine ⟨⟨[],
        [Event.dispatched (dispatch o.subcmd
          (resolveRoot o.effectiveRoot env.rootless) o.systemdCgroup)],
        by simp, by simp⟩, fun e2 he => by simp at he⟩

/-- Witness for `create_dir_before_dispatch` at a concrete invocation
with a failing directory creation. -/
theorem create_dir_before_dispatch_witness :
    (mainRun ⟨none, none, none, false, SubCommand.start⟩
        ⟨false, .ok (), fun _ => .error "EACCES"⟩).2 = .error "EACCES" ∧
    Event.dispatched (HandlerCall.start rootlessFallback) ∉
      (mainRun ⟨none, none, none, false, SubCommand.start⟩
        ⟨false, .ok (), fun _ => .error "EACCES"⟩).1 :=
  ⟨((create_dir_before_dispatch ⟨none, none, none, false, SubCommand.start⟩
      ⟨false, .ok (), fun _ => .error "EACCES"⟩).2 "EACCES" rfl).1,
   ((create_dir_before_dispatch ⟨none, none, none, false, SubCommand.start⟩
      ⟨false, .ok (), fun _ => .error "EACCES"⟩).2 "EACCES" rfl).2
     (HandlerCall.start rootlessFallback)⟩

/-- Claim C8: handshake ordering.  In every completed child bootstrap the
parent-channel actions are exactly: ChildReady sent first, then (in a
rootless configuration) RequestIdentifierMapping sent, then MappingAck
awaited.  Over the FIFO channel Main therefore observes ChildReady
strictly before RequestIdentifierMapping, and the child sends ChildReady
before it relays RequestIdentifierMapping or waits for MappingAck. -/
theorem handshake_message_order (s t : ChildProcess) (rootless : Bool)
    (h0 : s.parent_channel.acts = [])
    (h : childBootstrap s rootless = .ok t) :
    t.parent_channel.acts =
      (if rootless then
         [ChanAct.send Msg.childReady,
          ChanAct.send Msg.requestIdentifierMapping,
          ChanAct.waitFor Msg.mappingAck]
       else [ChanAct.send Msg.childReady]) ∧
    mainObserves t.parent_channel =
      (if rootless then [Msg.childReady, Msg.requestIdentifierMapping]
       else [Msg.childReady]) ∧
    (∀ l₁ l₂, mainObserves t.parent_channel =
        l₁ ++ Msg.requestIdentifierMapping :: l₂ →
        Msg.childReady ∈ l₁) := by
  obtain ⟨⟨op, acts⟩, rcv, pl⟩ := s
  simp only at h0
  subst h0
  cases op with
  | false =>
    unfold childBootstrap ChildProcess.notify_parent
      ParentChannel.send_child_ready at h
    exact Except.noConfusion h
  | true =>
    cases rootless with
    | false =>
      unfold childBootstrap ChildProcess.notify_parent
        ParentChannel.send_child_ready at h
      simp only [if_true, Bool.false_eq_true, if_false] at h
      injection h with h2
      subst h2
      refine ⟨rfl, rfl, ?_⟩
      intro l₁ l₂ heq
      have heq2 : [Msg.childReady] = l₁ ++ Msg.requestIdentifierMapping :: l₂ :=
        heq
      rcases l₁ with _ | ⟨a, l₁⟩ <;> simp_all
    | true =>
      unfold childBootstrap ChildProcess.notify_parent
        ParentChannel.send_child_ready
        ChildProcess.request_identifier_mapping
        ParentChannel.request_identifier_mapping
        ChildProcess.wait_for_mapping_ack
        ParentChannel.wait_for_mapping_ack at h
      simp only [if_true] at h
      injection h with h2
      subst h2
      refine ⟨rfl, rfl, ?_⟩
      intro l₁ l₂ heq
      have heq2 : [Msg.childReady, Msg.requestIdentifierMapping] =
          l₁ ++ Msg.requestIdentifierMapping :: l₂ := heq
      rcases l₁ with _ | ⟨a, l₁⟩ <;> simp_all

/-- Witness for `handshake_message_order` at a concrete rootless
bootstrap. -/
theorem handshake_message_order_witness :
    (⟨⟨true, [ChanAct.send Msg.childReady,
        ChanAct.send Msg.requestIdentifierMapping,
        ChanAct.waitFor Msg.mappingAck]⟩, none, none⟩ :
          ChildProcess).parent_channel.acts =
      (if true then
         [ChanAct.send Msg.childReady,
          ChanAct.send Msg.requestIdentifierMapping,
          ChanAct.waitFor Msg.mappingAck]
       else [ChanAct.send Msg.childReady]) :=
  (handshake_message_order ⟨⟨true, []⟩, none, none⟩
    ⟨⟨true, [ChanAct.send Msg.childReady,
        ChanAct.send Msg.requestIdentifierMapping,
        ChanAct.waitFor Msg.mappingAck]⟩, none, none⟩ true rfl rfl).1

end Youki
